import Mathlib

/-!
Verification of the wedding-registry Apps Script backend
(`src/registry-apps-script.js`) against its specification.

The backing spreadsheet is modelled as a list of rows, each row a list of
dynamically-typed cell values.  The functions `isClaimed`,
`getRegistryData`, `claimItem`, `doPost` and `createJsonResponse` of the
script are embedded as pure Lean functions; the ambient spreadsheet handle
becomes an explicit `Option Sheet` argument (`none` = the named sheet is
missing) and `new Date()` becomes an explicit `now` argument threaded into
`claimItem`.
-/

namespace Registry

/-- A dynamically-typed spreadsheet cell / JS value.  `vNull` stands for
JS `null`/`undefined`; `vDate t` is a `Date` object with timestamp `t`. -/
inductive Value where
  | vNull : Value
  | vStr : String → Value
  | vNum : Int → Value
  | vBool : Bool → Value
  | vDate : Nat → Value
deriving DecidableEq

open Value

/-- JS truthiness: `null`/`undefined`, the empty string, the number 0 and
`false` are falsy; every other modelled value (including any `Date`) is
truthy. -/
def truthy : Value → Bool
  | vNull => false
  | vStr s => !(s == "")
  | vNum n => !(n == 0)
  | vBool b => b
  | vDate _ => true

/-- JS `value.toString()` for the modelled values.  (`isClaimed` only ever
calls it on truthy values, so the string chosen for `vNull` is irrelevant.) -/
def toStr : Value → String
  | vNull => "null"
  | vStr s => s
  | vNum n => toString n
  | vBool b => if b then "true" else "false"
  | vDate t => "Date:" ++ toString t

/-- JS `String.prototype.toLowerCase` (ASCII fragment). -/
def jsToLower (s : String) : String := ⟨s.data.map Char.toLower⟩

/-- JS `String.prototype.trim`: strip leading and trailing whitespace. -/
def jsTrim (s : String) : String :=
  ⟨((s.data.dropWhile Char.isWhitespace).reverse.dropWhile Char.isWhitespace).reverse⟩

/-- Source function `isClaimed(value)`: falsy values are unclaimed;
otherwise stringify, lowercase, trim and compare with the four accepted
markers. -/
def isClaimed (value : Value) : Bool :=
  if !truthy value then false
  else
    let strValue := jsTrim (jsToLower (toStr value))
    strValue == "true" || strValue == "yes" || strValue == "claimed" || strValue == "x"

/-- The backing table: `rows` is what `sheet.getDataRange().getValues()`
returns (row 1 of the sheet is `rows[0]`); `rows.length` is
`sheet.getLastRow()`. -/
structure Sheet where
  rows : List (List Value)
deriving DecidableEq

/-- Reading cell `j` (0-based) of a row; absent cells read as the empty
string, as `getValues()` pads blank cells with `""`. -/
def cellAt (row : List Value) (j : Nat) : Value := row.getD j (vStr "")

/-- Pad a row on the right with empty-string cells up to length `n`. -/
def padTo (row : List Value) (n : Nat) : List Value :=
  row ++ List.replicate (n - row.length) (vStr "")

/-- Writing one cell of one row, as `setValue` does: pad so that cell `c`
exists, then overwrite it. -/
def setCellRow (row : List Value) (c : Nat) (v : Value) : List Value :=
  (padTo row (c + 1)).set c v

/-- Apply `f` to row `r` (0-based) of a row list, leaving the rest alone. -/
def modifyRow : List (List Value) → Nat → (List Value → List Value) → List (List Value)
  | [], _, _ => []
  | row :: rest, 0, f => f row :: rest
  | row :: rest, Nat.succ n, f => row :: modifyRow rest n f

/-- The effect of `sheet.getRange(r, c).setValue(v)`, with `r`, `c` 0-based
here. -/
def setCell (s : Sheet) (r c : Nat) (v : Value) : Sheet :=
  ⟨modifyRow s.rows r (fun row => setCellRow row c v)⟩

/-- A registry item as projected by `getRegistryData` (the JS object pushed
into `items`). -/
structure RegistryItem where
  id : Nat
  productName : Value
  manufacturer : Value
  price : Value
  productUrl : Value
  imageUrl : Value
  claimed : Bool
  claimedBy : Value
deriving DecidableEq

/-- JS `v || ''`: the value itself when truthy, otherwise the empty string. -/
def orEmpty (v : Value) : Value := if truthy v then v else vStr ""

/-- The object literal pushed for data row `data[i]` (so `id := i`, the
0-based array index of the row, exactly as the source writes `id: i`). -/
def rowToItem (i : Nat) (row : List Value) : RegistryItem where
  id := i
  productName := orEmpty (cellAt row 0)
  manufacturer := orEmpty (cellAt row 1)
  price := orEmpty (cellAt row 2)
  productUrl := orEmpty (cellAt row 3)
  imageUrl := orEmpty (cellAt row 4)
  claimed := isClaimed (cellAt row 5)
  claimedBy := orEmpty (cellAt row 6)

/-- The loop guard `!row[0] || row[0].toString().trim() === ''`. -/
def skipRow (row : List Value) : Bool :=
  !truthy (cellAt row 0) || jsTrim (toStr (cellAt row 0)) == ""

/-- The `for` loop of `getRegistryData`: `i` is the array index of the first
row of `rowList` within the full data range. -/
def buildItems : Nat → List (List Value) → List RegistryItem
  | _, [] => []
  | i, row :: rest =>
    if skipRow row then buildItems (i + 1) rest
    else rowToItem i row :: buildItems (i + 1) rest

/-- The `{ items: ... }` result of `getRegistryData`. -/
structure RegistryData where
  items : List RegistryItem
deriving DecidableEq

/-- Source function `getRegistryData()` on a located sheet: fewer than two
rows gives an empty item list; otherwise the loop runs from array index 1
(skipping the header row `data[0]`). -/
def getRegistryData (s : Sheet) : RegistryData :=
  if s.rows.length < 2 then { items := [] }
  else { items := buildItems 1 (s.rows.drop 1) }

/-- The `{ success, message }` object `claimItem` returns. -/
structure ClaimResult where
  success : Bool
  message : String
deriving DecidableEq

/-- Source function `claimItem(rowIndex, claimedBy)`.  The thrown errors
become `.error` with the thrown message; `now` stands for `new Date()`.
Here `rowIndex` is the 1-based sheet row, so cells of that row live at list
index `rowIndex - 1`; column F (claimed flag) is cell 5, G (claimant) is
cell 6, H (timestamp) is cell 7. -/
def claimItem (sheet : Option Sheet) (rowIndex : Int) (claimedBy : Value)
    (now : Value) : Except String (ClaimResult × Sheet) :=
  match sheet with
  | none => .error "Sheet \"REGISTRY\" not found"
  | some s =>
    let lastRow : Int := s.rows.length
    if rowIndex < 2 || rowIndex > lastRow then .error "Invalid row index"
    else
      let r := (rowIndex - 1).toNat
      let currentValue := cellAt (s.rows.getD r []) 5
      if isClaimed currentValue then
        .ok ({ success := false, message := "Item already claimed" }, s)
      else
        let s1 := setCell s r 5 (vStr "TRUE")
        let s2 := if truthy claimedBy then setCell s1 r 6 claimedBy else s1
        let s3 := setCell s2 r 7 now
        .ok ({ success := true, message := "Item claimed successfully" }, s3)

/-- JSON values, for the payloads handed to `createJsonResponse`. -/
inductive Json where
  | jNull : Json
  | jBool : Bool → Json
  | jNum : Int → Json
  | jStr : String → Json
  | jArr : List Json → Json
  | jObj : List (String × Json) → Json

/-- Escape one character for a JSON string literal. -/
def escapeChar (c : Char) : String :=
  if c = '"' then "\\\""
  else if c = '\\' then "\\\\"
  else if c = '\n' then "\\n"
  else if c = '\r' then "\\r"
  else if c = '\t' then "\\t"
  else String.singleton c

/-- Escape a whole string for a JSON string literal. -/
def escapeString (s : String) : String := String.join (s.data.map escapeChar)

mutual

/-- Embedding of `JSON.stringify` over the modelled JSON values. -/
def stringify : Json → String
  | Json.jNull => "null"
  | Json.jBool b => if b then "true" else "false"
  | Json.jNum n => toString n
  | Json.jStr s => "\"" ++ escapeString s ++ "\""
  | Json.jArr xs => "[" ++ stringifyArr xs ++ "]"
  | Json.jObj fs => "\x7b" ++ stringifyObj fs ++ "\x7d"

/-- Comma-joined stringification of array elements. -/
def stringifyArr : List Json → String
  | [] => ""
  | [x] => stringify x
  | x :: y :: xs => stringify x ++ "," ++ stringifyArr (y :: xs)

/-- Comma-joined stringification of object fields. -/
def stringifyObj : List (String × Json) → String
  | [] => ""
  | [(k, v)] => "\"" ++ escapeString k ++ "\":" ++ stringify v
  | (k, v) :: g :: fs =>
    "\"" ++ escapeString k ++ "\":" ++ stringify v ++ "," ++ stringifyObj (g :: fs)

end

/-- The `ContentService` mime type set by the script. -/
inductive MimeType where
  | JSON : MimeType
deriving DecidableEq

/-- The `TextOutput` the script returns: the stringified body and the mime
type.  `ContentService` text outputs carry no HTTP status code, which is why
this structure has no status field. -/
structure Response where
  content : String
  mimeType : MimeType
deriving DecidableEq

/-- Source function `createJsonResponse(data, statusCode)`.  The source
declares the `statusCode` parameter (defaulted to 200 at the call sites
that omit it) but never uses it: the output is built from `data` alone. -/
def createJsonResponse (data : Json) (statusCode : Nat) : Response :=
  { content := stringify data, mimeType := MimeType.JSON }

/-- The JSON object corresponding to a `ClaimResult`. -/
def claimResultToJson (r : ClaimResult) : Json :=
  Json.jObj [("success", Json.jBool r.success), ("message", Json.jStr r.message)]

/-- The outcome of `JSON.parse(e.postData.contents)`: either the parse threw
(`malformed`, with the thrown message), or it produced an object whose
`action`, `rowIndex` and `claimedBy` fields are the given values. -/
inductive PostBody where
  | malformed : String → PostBody
  | parsed : Value → Int → Value → PostBody

/-- Source function `doPost(e)`: dispatch on the parsed body.  The pair
returned carries the response together with the (possibly updated) backing
store. -/
def doPost (body : PostBody) (sheet : Option Sheet) (now : Value) :
    Response × Option Sheet :=
  match body with
  | PostBody.malformed msg =>
    (createJsonResponse (Json.jObj [("error", Json.jStr msg)]) 500, sheet)
  | PostBody.parsed action rowIndex claimedBy =>
    if action = vStr "claim" then
      match claimItem sheet rowIndex claimedBy now with
      | .ok (result, s') => (createJsonResponse (claimResultToJson result) 200, some s')
      | .error msg =>
        (createJsonResponse (Json.jObj [("error", Json.jStr msg)]) 500, sheet)
    else
      (createJsonResponse (Json.jObj [("error", Json.jStr "Invalid action")]) 400, sheet)

/-- A concrete table holding only the header row. -/
def headerOnly : Sheet :=
  ⟨[[vStr "Product Name", vStr "Manufacturer", vStr "Price", vStr "Product URL",
     vStr "Image URL", vStr "Claimed"]]⟩

/-- A concrete table: header plus one unclaimed data row in sheet row 2. -/
def headerPlusOne : Sheet :=
  ⟨[[vStr "Product Name", vStr "Manufacturer", vStr "Price", vStr "Product URL",
     vStr "Image URL", vStr "Claimed"],
    [vStr "Lamp", vStr "Acme", vStr "$10", vStr "http:u", vStr "http:i", vStr ""]]⟩

/-- A concrete table whose sheet row 2 has a blank first column (and an
unclaimed flag) while sheet row 3 holds a real item. -/
def blankRowSheet : Sheet :=
  ⟨[[vStr "Product Name", vStr "Manufacturer", vStr "Price", vStr "Product URL",
     vStr "Image URL", vStr "Claimed"],
    [vStr "", vStr "", vStr "", vStr "", vStr "", vStr ""],
    [vStr "Vase", vStr "Acme", vStr "$20", vStr "http:u", vStr "http:i", vStr ""]]⟩

/-- A concrete table whose single data row is already claimed (flag "yes",
claimant "Bob", timestamp present). -/
def claimedSheet : Sheet :=
  ⟨[[vStr "Product Name", vStr "Manufacturer", vStr "Price", vStr "Product URL",
     vStr "Image URL", vStr "Claimed"],
    [vStr "Lamp", vStr "Acme", vStr "$10", vStr "http:u", vStr "http:i", vStr "yes",
     vStr "Bob", vDate 1]]⟩

lemma getD_set_self : ∀ (l : List Value) (i : Nat) (v d : Value),
    i < l.length → (l.set i v).getD i d = v
  | [], i, _, _, h => absurd h (Nat.not_lt_zero i)
  | _ :: _, 0, _, _, _ => rfl
  | _ :: l, i + 1, v, d, h => getD_set_self l i v d (Nat.lt_of_succ_lt_succ h)

lemma getD_set_ne : ∀ (l : List Value) (i j : Nat) (v d : Value),
    i ≠ j → (l.set i v).getD j d = l.getD j d
  | [], _, _, _, _, _ => rfl
  | _ :: _, 0, 0, _, _, h => absurd rfl h
  | _ :: _, 0, _ + 1, _, _, _ => rfl
  | _ :: _, _ + 1, 0, _, _, _ => rfl
  | _ :: l, i + 1, j + 1, v, d, h =>
    getD_set_ne l i j v d (fun e => h (congrArg Nat.succ e))

lemma getD_replicate_self : ∀ (n j : Nat) (v : Value),
    (List.replicate n v).getD j v = v
  | 0, _, _ => rfl
  | _ + 1, 0, _ => rfl
  | n + 1, j + 1, v => getD_replicate_self n j v

lemma getD_padTo : ∀ (row : List Value) (n j : Nat),
    (padTo row n).getD j (vStr "") = row.getD j (vStr "")
  | [], n, j => by
    have h : (padTo [] n).getD j (vStr "") = vStr "" := by
      simp only [padTo, List.nil_append]
      exact getD_replicate_self (n - List.length []) j (vStr "")
    rw [h]
    cases j <;> rfl
  | _ :: _, _, 0 => rfl
  | a :: row, n, j + 1 =>
    calc (padTo (a :: row) n).getD (j + 1) (vStr "")
        = (row ++ List.replicate (n - (a :: row).length) (vStr "")).getD j (vStr "") := rfl
      _ = (padTo row (n - 1)).getD j (vStr "") := by
          have h : n - (a :: row).length = n - 1 - row.length := by
            simp only [List.length_cons]; omega
          simp only [padTo]
          rw [h]
      _ = row.getD j (vStr "") := getD_padTo row (n - 1) j

lemma cellAt_setCellRow_self (row : List Value) (c : Nat) (v : Value) :
    cellAt (setCellRow row c v) c = v := by
  have hlen : c < (padTo row (c + 1)).length := by
    simp only [padTo, List.length_append, List.length_replicate]
    omega
  exact getD_set_self (padTo row (c + 1)) c v (vStr "") hlen

lemma cellAt_setCellRow_ne (row : List Value) (c j : Nat) (v : Value) (h : c ≠ j) :
    cellAt (setCellRow row c v) j = cellAt row j := by
  unfold cellAt setCellRow
  rw [getD_set_ne _ _ _ _ _ h, getD_padTo]

lemma modifyRow_length : ∀ (rows : List (List Value)) (r : Nat)
    (f : List Value → List Value), (modifyRow rows r f).length = rows.length
  | [], _, _ => rfl
  | _ :: _, 0, _ => rfl
  | _ :: rest, r + 1, f => congrArg Nat.succ (modifyRow_length rest r f)

lemma modifyRow_getD_self : ∀ (rows : List (List Value)) (r : Nat)
    (f : List Value → List Value), r < rows.length →
    (modifyRow rows r f).getD r [] = f (rows.getD r [])
  | [], r, _, h => absurd h (Nat.not_lt_zero r)
  | _ :: _, 0, _, _ => rfl
  | _ :: rest, r + 1, f, h => modifyRow_getD_self rest r f (Nat.lt_of_succ_lt_succ h)

lemma setCell_length (s : Sheet) (r c : Nat) (v : Value) :
    (setCell s r c v).rows.length = s.rows.length := modifyRow_length _ _ _

lemma setCell_getD_self (s : Sheet) (r c : Nat) (v : Value) (h : r < s.rows.length) :
    (setCell s r c v).rows.getD r [] = setCellRow (s.rows.getD r []) c v :=
  modifyRow_getD_self _ _ _ h

lemma getD_drop_one (l : List (List Value)) (n : Nat) :
    (l.drop 1).getD n [] = l.getD (n + 1) [] := by
  cases l <;> rfl

lemma claimItem_range_check (s : Sheet) (rowIndex : Int) (claimedBy now : Value)
    (h1 : 2 ≤ rowIndex) (h2 : rowIndex ≤ (s.rows.length : Int)) :
    claimItem (some s) rowIndex claimedBy now =
      (if isClaimed (cellAt (s.rows.getD (rowIndex - 1).toNat []) 5) then
        Except.ok ({ success := false, message := "Item already claimed" }, s)
      else
        Except.ok ({ success := true, message := "Item claimed successfully" },
          setCell
            (if truthy claimedBy then
              setCell (setCell s (rowIndex - 1).toNat 5 (vStr "TRUE"))
                (rowIndex - 1).toNat 6 claimedBy
            else setCell s (rowIndex - 1).toNat 5 (vStr "TRUE"))
            (rowIndex - 1).toNat 7 now)) := by
  have hcond : (decide (rowIndex < 2) || decide (rowIndex > (s.rows.length : Int))) = false := by
    simp only [Bool.or_eq_false_iff, decide_eq_false_iff_not, not_lt]
    omega
  simp only [claimItem, hcond]
  rfl

lemma claimItem_unclaimed (s : Sheet) (rowIndex : Int) (claimedBy now : Value)
    (h1 : 2 ≤ rowIndex) (h2 : rowIndex ≤ (s.rows.length : Int))
    (h3 : isClaimed (cellAt (s.rows.getD (rowIndex - 1).toNat []) 5) = false) :
    ∃ s' : Sheet,
      claimItem (some s) rowIndex claimedBy now =
        Except.ok ({ success := true, message := "Item claimed successfully" }, s') ∧
      cellAt (s'.rows.getD (rowIndex - 1).toNat []) 5 = vStr "TRUE" ∧
      cellAt (s'.rows.getD (rowIndex - 1).toNat []) 6 =
        (if truthy claimedBy then claimedBy
         else cellAt (s.rows.getD (rowIndex - 1).toNat []) 6) ∧
      cellAt (s'.rows.getD (rowIndex - 1).toNat []) 7 = now := by
  have heq := claimItem_range_check s rowIndex claimedBy now h1 h2
  rw [if_neg (by rw [h3]; exact Bool.false_ne_true)] at heq
  set r := (rowIndex - 1).toNat with hr
  have hrlt : r < s.rows.length := by omega
  set s1 := setCell s r 5 (vStr "TRUE") with hs1
  have hlen1 : s1.rows.length = s.rows.length := setCell_length _ _ _ _
  have hrow1 : s1.rows.getD r [] = setCellRow (s.rows.getD r []) 5 (vStr "TRUE") :=
    setCell_getD_self s r 5 (vStr "TRUE") hrlt
  by_cases htr : truthy claimedBy = true
  · rw [if_pos htr] at heq
    set s2 := setCell s1 r 6 claimedBy with hs2
    set s3 := setCell s2 r 7 now with hs3
    have hlen2 : s2.rows.length = s.rows.length := by
      rw [hs2, setCell_length, hlen1]
    have hrow3 : s3.rows.getD r [] = setCellRow (s2.rows.getD r []) 7 now :=
      setCell_getD_self s2 r 7 now (by omega)
    have hrow2 : s2.rows.getD r [] = setCellRow (s1.rows.getD r []) 6 claimedBy :=
      setCell_getD_self s1 r 6 claimedBy (by omega)
    refine ⟨s3, heq, ?_, ?_, ?_⟩
    · rw [hrow3, cellAt_setCellRow_ne _ _ _ _ (by omega), hrow2,
        cellAt_setCellRow_ne _ _ _ _ (by omega), hrow1, cellAt_setCellRow_self]
    · rw [if_pos htr, hrow3, cellAt_setCellRow_ne _ _ _ _ (by omega), hrow2,
        cellAt_setCellRow_self]
    · rw [hrow3, cellAt_setCellRow_self]
  · rw [if_neg htr] at heq
    set s3 := setCell s1 r 7 now with hs3
    have hrow3 : s3.rows.getD r [] = setCellRow (s1.rows.getD r []) 7 now :=
      setCell_getD_self s1 r 7 now (by omega)
    refine ⟨s3, heq, ?_, ?_, ?_⟩
    · rw [hrow3, cellAt_setCellRow_ne _ _ _ _ (by omega), hrow1, cellAt_setCellRow_self]
    · rw [if_neg htr, hrow3, cellAt_setCellRow_ne _ _ _ _ (by omega), hrow1,
        cellAt_setCellRow_ne _ _ _ _ (by omega)]
    · rw [hrow3, cellAt_setCellRow_self]

lemma mem_buildItems (it : RegistryItem) :
    ∀ (rows : List (List Value)) (i : Nat), it ∈ buildItems i rows →
      i ≤ it.id ∧ skipRow (rows.getD (it.id - i) []) = false := by
  intro rows
  induction rows with
  | nil => exact fun i h => absurd h (List.not_mem_nil it)
  | cons row rest ih =>
    intro i h
    by_cases hskip : skipRow row = true
    · have h' : it ∈ buildItems (i + 1) rest := by
        simpa [buildItems, hskip] using h
      obtain ⟨hle, hsr⟩ := ih (i + 1) h'
      refine ⟨by omega, ?_⟩
      have hidx : it.id - i = (it.id - (i + 1)) + 1 := by omega
      rw [hidx, List.getD_cons_succ]
      exact hsr
    · rw [Bool.not_eq_true] at hskip
      have h' : it = rowToItem i row ∨ it ∈ buildItems (i + 1) rest := by
        have hb : buildItems i (row :: rest) =
            rowToItem i row :: buildItems (i + 1) rest := by
          simp [buildItems, hskip]
        rw [hb] at h
        exact List.mem_cons.mp h
      rcases h' with h' | h'
      · subst h'
        refine ⟨Nat.le_refl _, ?_⟩
        have hidx : (rowToItem i row).id - i = 0 := Nat.sub_self i
        rw [hidx, List.getD_cons_zero]
        exact hskip
      · obtain ⟨hle, hsr⟩ := ih (i + 1) h'
        refine ⟨by omega, ?_⟩
        have hidx : it.id - i = (it.id - (i + 1)) + 1 := by omega
        rw [hidx, List.getD_cons_succ]
        exact hsr

lemma blank_row_not_listed (s : Sheet) (i : Nat)
    (hblank : jsTrim (toStr (cellAt (s.rows.getD i []) 0)) = "") :
    ∀ it ∈ (getRegistryData s).items, it.id ≠ i := by
  intro it hit hid
  by_cases hlen : s.rows.length < 2
  · have hempty : (getRegistryData s).items = [] := by simp [getRegistryData, hlen]
    rw [hempty] at hit
    exact absurd hit (List.not_mem_nil it)
  · have hmem : it ∈ buildItems 1 (s.rows.drop 1) := by
      have hgd : getRegistryData s = { items := buildItems 1 (s.rows.drop 1) } := by
        simp [getRegistryData, hlen]
      rw [hgd] at hit
      exact hit
    obtain ⟨hle, hsr⟩ := mem_buildItems it (s.rows.drop 1) 1 hmem
    rw [getD_drop_one] at hsr
    have hadd : it.id - 1 + 1 = it.id := by omega
    rw [hadd, hid] at hsr
    unfold skipRow at hsr
    rw [Bool.or_eq_false_iff] at hsr
    exact (beq_eq_false_iff_ne.mp hsr.2) hblank

/-- C1: the spec says the listing assigns each item an `id` equal to the
literal 1-based sheet row number (header = row 1, first data row = row 2
with `id` 2).  The code instead writes `id: i` with `i` the 0-based array
index of the data range, so the first data row — sheet row 2 of
`headerPlusOne` — receives `id` 1, not 2, contradicting the comment
`// Row index (1-based, matches sheet row number)` in the source itself. -/
theorem C1_listing_id_is_array_index_not_row_number :
    (getRegistryData headerPlusOne).items.map RegistryItem.id = [1] ∧
    ¬ (getRegistryData headerPlusOne).items.map RegistryItem.id = [2] := by
  exact ⟨by decide, by decide⟩

/-- C2: claiming a row in the valid range whose claimed-flag cell already
normalizes to true returns the business result
`success = false, message = "Item already claimed"` without throwing and
returns the sheet completely unchanged, so the flag, claimant and timestamp
cells of the row are untouched (claimed is monotonic). -/
theorem C2_already_claimed_rejected (s : Sheet) (rowIndex : Int) (claimedBy now : Value)
    (h1 : 2 ≤ rowIndex) (h2 : rowIndex ≤ (s.rows.length : Int))
    (h3 : isClaimed (cellAt (s.rows.getD (rowIndex - 1).toNat []) 5) = true) :
    claimItem (some s) rowIndex claimedBy now =
      Except.ok ({ success := false, message := "Item already claimed" }, s) := by
  rw [claimItem_range_check s rowIndex claimedBy now h1 h2, if_pos h3]

/-- Witness for C2 on a concrete already-claimed sheet. -/
theorem C2_already_claimed_rejected_witness :
    claimItem (some claimedSheet) 2 (vStr "Eve") (vDate 9) =
      Except.ok ({ success := false, message := "Item already claimed" }, claimedSheet) :=
  C2_already_claimed_rejected claimedSheet 2 (vStr "Eve") (vDate 9)
    (by decide) (by decide) (by decide)

/-- C3: `isClaimed` yields true exactly when the value is truthy and its
string form, lowercased then trimmed, is one of "true", "yes", "claimed",
"x"; in particular true on "TRUE", "True", "yes", "Claimed", "x", "X" and
false on "", null, "no", "false", "maybe". -/
theorem C3_isClaimed_characterization :
    (∀ v : Value, isClaimed v = true ↔
      (truthy v = true ∧
        (jsTrim (jsToLower (toStr v)) = "true" ∨ jsTrim (jsToLower (toStr v)) = "yes" ∨
         jsTrim (jsToLower (toStr v)) = "claimed" ∨ jsTrim (jsToLower (toStr v)) = "x"))) ∧
    isClaimed (vStr "TRUE") = true ∧ isClaimed (vStr "True") = true ∧
    isClaimed (vStr "yes") = true ∧ isClaimed (vStr "Claimed") = true ∧
    isClaimed (vStr "x") = true ∧ isClaimed (vStr "X") = true ∧
    isClaimed (vStr "") = false ∧ isClaimed vNull = false ∧
    isClaimed (vStr "no") = false ∧ isClaimed (vStr "false") = false ∧
    isClaimed (vStr "maybe") = false := by
  refine ⟨?_, by decide, by decide, by decide, by decide, by decide, by decide,
    by decide, by decide, by decide, by decide, by decide⟩
  intro v
  by_cases h : truthy v = true
  · simp [isClaimed, h, or_assoc]
  · simp [isClaimed, h]

/-- C4: claiming a row in the valid range whose claimed-flag cell
normalizes to false, with a truthy (non-empty) `claimedBy`, succeeds with
`message = "Item claimed successfully"`, sets the flag cell to a value
normalizing to claimed, sets the claimant cell to `claimedBy`, and stamps
the timestamp cell with the current time `now`. -/
theorem C4_unclaimed_claim_succeeds (s : Sheet) (rowIndex : Int) (claimedBy now : Value)
    (h1 : 2 ≤ rowIndex) (h2 : rowIndex ≤ (s.rows.length : Int))
    (h3 : isClaimed (cellAt (s.rows.getD (rowIndex - 1).toNat []) 5) = false)
    (h4 : truthy claimedBy = true) :
    ∃ s' : Sheet,
      claimItem (some s) rowIndex claimedBy now =
        Except.ok ({ success := true, message := "Item claimed successfully" }, s') ∧
      isClaimed (cellAt (s'.rows.getD (rowIndex - 1).toNat []) 5) = true ∧
      cellAt (s'.rows.getD (rowIndex - 1).toNat []) 6 = claimedBy ∧
      cellAt (s'.rows.getD (rowIndex - 1).toNat []) 7 = now := by
  obtain ⟨s', heq, hc5, hc6, hc7⟩ := claimItem_unclaimed s rowIndex claimedBy now h1 h2 h3
  refine ⟨s', heq, ?_, ?_, hc7⟩
  · rw [hc5]; decide
  · rw [hc6, if_pos h4]

/-- Witness for C4 on a concrete unclaimed sheet with claimant "Alex". -/
theorem C4_unclaimed_claim_succeeds_witness :
    ∃ s' : Sheet,
      claimItem (some headerPlusOne) 2 (vStr "Alex") (vDate 7) =
        Except.ok ({ success := true, message := "Item claimed successfully" }, s') ∧
      isClaimed (cellAt (s'.rows.getD (((2 : Int) - 1).toNat) []) 5) = true ∧
      cellAt (s'.rows.getD (((2 : Int) - 1).toNat) []) 6 = vStr "Alex" ∧
      cellAt (s'.rows.getD (((2 : Int) - 1).toNat) []) 7 = vDate 7 :=
  C4_unclaimed_claim_succeeds headerPlusOne 2 (vStr "Alex") (vDate 7)
    (by decide) (by decide) (by decide) (by decide)

/-- C5: a `rowIndex` strictly below 2 or strictly above the last occupied
row makes `claimItem` throw "Invalid row index" (not a business result),
and the router surfaces the error while the table is left unmodified (the
store coming out of `doPost` is the original one). -/
theorem C5_invalid_row_index_throws (s : Sheet) (rowIndex : Int) (claimedBy now : Value)
    (h : rowIndex < 2 ∨ (s.rows.length : Int) < rowIndex) :
    claimItem (some s) rowIndex claimedBy now = Except.error "Invalid row index" ∧
    doPost (PostBody.parsed (vStr "claim") rowIndex claimedBy) (some s) now =
      (createJsonResponse (Json.jObj [("error", Json.jStr "Invalid row index")]) 500,
        some s) := by
  have hcond : (decide (rowIndex < 2) || decide (rowIndex > (s.rows.length : Int))) = true := by
    simp only [Bool.or_eq_true, decide_eq_true_eq]
    rcases h with h | h
    · exact Or.inl h
    · exact Or.inr h
  have hclaim : claimItem (some s) rowIndex claimedBy now = Except.error "Invalid row index" := by
    simp only [claimItem, hcond]
    rfl
  refine ⟨hclaim, ?_⟩
  simp [doPost, hclaim]

/-- Witness for C5: claiming the header row (index 1) of a concrete sheet. -/
theorem C5_invalid_row_index_throws_witness :
    claimItem (some headerPlusOne) 1 (vStr "A") (vDate 0) = Except.error "Invalid row index" ∧
    doPost (PostBody.parsed (vStr "claim") 1 (vStr "A")) (some headerPlusOne) (vDate 0) =
      (createJsonResponse (Json.jObj [("error", Json.jStr "Invalid row index")]) 500,
        some headerPlusOne) :=
  C5_invalid_row_index_throws headerPlusOne 1 (vStr "A") (vDate 0) (Or.inl (by decide))

/-- C6 counterexample: for a concrete body whose action is not "claim", the
response the router emits is exactly the one `createJsonResponse` builds
with status 200 — the 400 the source passes is discarded, so the body is
not "carried with a client-error (4xx) status" as the claim states. -/
theorem C6_counterexample_status_not_carried :
    doPost (PostBody.parsed (vStr "list") 2 (vStr "")) (some headerPlusOne) (vDate 0) =
      (createJsonResponse (Json.jObj [("error", Json.jStr "Invalid action")]) 200,
        some headerPlusOne) := rfl

/-- C6 (amended): for every parsed write body whose `action` differs from
"claim", the router returns the body `error = "Invalid action"` and
performs no store operation (the store comes back unchanged); the response
is the one built with the 400 argument, but since `createJsonResponse`
discards its status argument the emitted response is identical for every
status code, so no client-error status is actually carried. -/
theorem C6_invalid_action_response (action : Value) (rowIndex : Int) (claimedBy : Value)
    (sheet : Option Sheet) (now : Value) (h : action ≠ vStr "claim") :
    doPost (PostBody.parsed action rowIndex claimedBy) sheet now =
      (createJsonResponse (Json.jObj [("error", Json.jStr "Invalid action")]) 400, sheet) ∧
    ∀ statusCode : Nat,
      (doPost (PostBody.parsed action rowIndex claimedBy) sheet now).1 =
        createJsonResponse (Json.jObj [("error", Json.jStr "Invalid action")]) statusCode := by
  have hmain : doPost (PostBody.parsed action rowIndex claimedBy) sheet now =
      (createJsonResponse (Json.jObj [("error", Json.jStr "Invalid action")]) 400, sheet) := by
    simp [doPost, h]
  exact ⟨hmain, fun statusCode => by rw [hmain]; rfl⟩

/-- Witness for C6 (amended) at a concrete non-claim action. -/
theorem C6_invalid_action_response_witness :
    doPost (PostBody.parsed (vStr "update") 3 (vStr "Ann")) (some headerPlusOne) (vDate 2) =
      (createJsonResponse (Json.jObj [("error", Json.jStr "Invalid action")]) 400,
        some headerPlusOne) :=
  (C6_invalid_action_response (vStr "update") 3 (vStr "Ann") (some headerPlusOne) (vDate 2)
    (by decide)).1

/-- C7 counterexample: sheet row 2 of `blankRowSheet` has a blank first
column, yet a claim addressed to row index 2 succeeds and mutates the row:
the claim that such a row is "not claimable by its index" is false
(`claimItem` never looks at the first column). -/
theorem C7_counterexample_blank_row_claimed :
    jsTrim (toStr (cellAt (blankRowSheet.rows.getD 1 []) 0)) = "" ∧
    claimItem (some blankRowSheet) 2 (vStr "Guest") (vDate 3) =
      Except.ok ({ success := true, message := "Item claimed successfully" },
        ⟨[[vStr "Product Name", vStr "Manufacturer", vStr "Price", vStr "Product URL",
           vStr "Image URL", vStr "Claimed"],
          [vStr "", vStr "", vStr "", vStr "", vStr "", vStr "TRUE", vStr "Guest", vDate 3],
          [vStr "Vase", vStr "Acme", vStr "$20", vStr "http:u", vStr "http:i", vStr ""]]⟩) :=
  ⟨rfl, rfl⟩

/-- C7 (amended): a row whose first column is blank is indeed invisible to
the listing (no returned item carries its index), but it remains claimable
by its physical row index: a claim addressed to it succeeds whenever the
index is in range and its claimed-flag cell normalizes to false. -/
theorem C7_blank_row_invisible_yet_claimable (s : Sheet) (rowIndex : Int)
    (claimedBy now : Value)
    (h1 : 2 ≤ rowIndex) (h2 : rowIndex ≤ (s.rows.length : Int))
    (hblank : jsTrim (toStr (cellAt (s.rows.getD (rowIndex - 1).toNat []) 0)) = "")
    (hunclaimed : isClaimed (cellAt (s.rows.getD (rowIndex - 1).toNat []) 5) = false) :
    (∀ it ∈ (getRegistryData s).items, it.id ≠ (rowIndex - 1).toNat) ∧
    ∃ s' : Sheet, claimItem (some s) rowIndex claimedBy now =
      Except.ok ({ success := true, message := "Item claimed successfully" }, s') := by
  constructor
  · exact blank_row_not_listed s (rowIndex - 1).toNat hblank
  · obtain ⟨s', heq, _, _, _⟩ := claimItem_unclaimed s rowIndex claimedBy now h1 h2 hunclaimed
    exact ⟨s', heq⟩

/-- Witness for C7 (amended) on `blankRowSheet` at row index 2. -/
theorem C7_blank_row_invisible_yet_claimable_witness :
    (∀ it ∈ (getRegistryData blankRowSheet).items, it.id ≠ (((2 : Int) - 1).toNat)) ∧
    ∃ s' : Sheet, claimItem (some blankRowSheet) 2 (vStr "Ann") (vDate 4) =
      Except.ok ({ success := true, message := "Item claimed successfully" }, s') :=
  C7_blank_row_invisible_yet_claimable blankRowSheet 2 (vStr "Ann") (vDate 4)
    (by decide) (by decide) (by decide) (by decide)

/-- C8: the listing excludes every data row whose first column is empty or
whitespace-only after trimming (no returned item carries such an index,
whatever the other columns hold), and a table with fewer than 2 rows lists
no items at all. -/
theorem C8_listing_skips_blank_first_column (s : Sheet) :
    (s.rows.length < 2 → getRegistryData s = { items := [] }) ∧
    ∀ i : Nat, jsTrim (toStr (cellAt (s.rows.getD i []) 0)) = "" →
      ∀ it ∈ (getRegistryData s).items, it.id ≠ i := by
  exact ⟨fun h => by simp [getRegistryData, h],
    fun i hblank => blank_row_not_listed s i hblank⟩

/-- Witness for C8: the header-only sheet lists nothing, and the blank row
of `blankRowSheet` yields no item with its index. -/
theorem C8_listing_skips_blank_first_column_witness :
    getRegistryData headerOnly = { items := [] } ∧
    rowToItem 1 (blankRowSheet.rows.getD 1 []) ∉ (getRegistryData blankRowSheet).items :=
  ⟨(C8_listing_skips_blank_first_column headerOnly).1 (by decide),
   fun hmem =>
     (C8_listing_skips_blank_first_column blankRowSheet).2 1 (by decide) _ hmem rfl⟩

/-- C9: a claim on a valid unclaimed row with a falsy (empty or absent)
`claimedBy` still succeeds, and the claimant cell of the row is left
exactly as it was — not overwritten with an empty string. -/
theorem C9_empty_claimant_untouched (s : Sheet) (rowIndex : Int) (claimedBy now : Value)
    (h1 : 2 ≤ rowIndex) (h2 : rowIndex ≤ (s.rows.length : Int))
    (h3 : isClaimed (cellAt (s.rows.getD (rowIndex - 1).toNat []) 5) = false)
    (h4 : truthy claimedBy = false) :
    ∃ s' : Sheet,
      claimItem (some s) rowIndex claimedBy now =
        Except.ok ({ success := true, message := "Item claimed successfully" }, s') ∧
      cellAt (s'.rows.getD (rowIndex - 1).toNat []) 6 =
        cellAt (s.rows.getD (rowIndex - 1).toNat []) 6 := by
  obtain ⟨s', heq, _, hc6, _⟩ := claimItem_unclaimed s rowIndex claimedBy now h1 h2 h3
  rw [if_neg (by rw [h4]; exact Bool.false_ne_true)] at hc6
  exact ⟨s', heq, hc6⟩

/-- Witness for C9: claiming with the empty string as claimant. -/
theorem C9_empty_claimant_untouched_witness :
    ∃ s' : Sheet,
      claimItem (some headerPlusOne) 2 (vStr "") (vDate 7) =
        Except.ok ({ success := true, message := "Item claimed successfully" }, s') ∧
      cellAt (s'.rows.getD (((2 : Int) - 1).toNat) []) 6 =
        cellAt (headerPlusOne.rows.getD (((2 : Int) - 1).toNat) []) 6 :=
  C9_empty_claimant_untouched headerPlusOne 2 (vStr "") (vDate 7)
    (by decide) (by decide) (by decide) (by decide)

/-- C10: `createJsonResponse` ignores its status-code argument entirely —
for every payload and any two status codes the emitted responses are
identical, so neither the 400 for an invalid action nor the 500 for thrown
errors has any effect on the output. -/
theorem C10_statusCode_has_no_effect (data : Json) (s1 s2 : Nat) :
    createJsonResponse data s1 = createJsonResponse data s2 := rfl

end Registry
